import Mathlib

/-!
Verification of the AlgoSphere ticket-issuance ledger and its frontend callers.

The repository sources contain the React frontend (club registration, event
creation, the two ticket-purchase flows, the check-in verifier, dashboards) and
the project README describing the contract surface.  The PyTEAL smart contract
itself (the ticket-issuance ledger) is not among the sources, only its callers
and its documented interface, so the ledger operations below are modelled from
the specification; the frontend purchase flows (`BuyTicket.handleBuyTicket`
and `EventCard.handleRegisterNow`) are translated directly from the TypeScript
source.
-/

namespace AlgoSphere

/-- Modelled from the spec: the error kinds of the ticket-issuance ledger (§7).
The ledger smart contract is not among the repository sources. -/
inductive LedgerError where
  | AlreadyRegistered
  | ClubNotRegistered
  | InvalidInput
  | EventNotFound
  | EventInPast
  | InvalidPrice
  | InvalidQuantity
  | PaymentMismatch
  | NotOptedIn
  | SoldOut
deriving DecidableEq, Repr

/-- Modelled from the spec: `ClubRecord` (§3); the contract storing it is not
among the repository sources. -/
structure ClubRecord where
  ownerAddress : String
  name : String
  contact : String
deriving DecidableEq, Repr

/-- Modelled from the spec: `EventRecord` (§3); the contract storing it is not
among the repository sources. -/
structure EventRecord where
  eventId : Nat
  ownerAddress : String
  name : String
  venue : String
  eventDate : Nat
  ticketPrice : Nat
  totalTickets : Nat
  soldTickets : Nat
  assetId : Nat
deriving DecidableEq, Repr

/-- Modelled from the spec: the value transfer attached to a `buy_ticket`
call by the Identity/Payment Gateway (§6); the contract is not among the
repository sources.  The ledger checks its `amount` and `receiver` (§4.3). -/
structure Payment where
  amount : Nat
  receiver : String
deriving DecidableEq, Repr

/-- Modelled from the spec: the global ledger state (§3, §6 persisted layout):
club records, event records indexed contiguously by `eventId` (1-based),
the buyers' asset opt-ins and asset balances kept by the gateway, the current
ledger time, and the counter from which fresh asset identifiers are minted.
The contract holding this state is not among the repository sources. -/
structure Ledger where
  appAddress : String
  clubs : List ClubRecord
  events : List EventRecord
  optIns : List (String × Nat)
  balances : List ((String × Nat) × Nat)
  time : Nat
  nextAssetId : Nat
deriving DecidableEq, Repr

/-- Maximum ticket supply per event (spec §4.2, `MAX_TICKETS`; the CreateEvent
form enforces the same bound of 10,000 client-side). -/
def MAX_TICKETS : Nat := 10000

/-- Find the club record registered by an address, if any. -/
def findClub : List ClubRecord → String → Option ClubRecord
  | [], _ => none
  | c :: rest, addr => if c.ownerAddress = addr then some c else findClub rest addr

/-- Whether a holder has opted in to an asset (gateway-side set, spec §6). -/
def optedIn : List (String × Nat) → String → Nat → Bool
  | [], _, _ => false
  | (a, i) :: rest, addr, aid =>
    if a = addr ∧ i = aid then true else optedIn rest addr aid

/-- The balance a holder has of a given asset (0 when no entry exists). -/
def balanceLookup : List ((String × Nat) × Nat) → String → Nat → Nat
  | [], _, _ => 0
  | ((a, i), q) :: rest, addr, aid =>
    if a = addr ∧ i = aid then q else balanceLookup rest addr aid

/-- Credit one unit of an asset to a holder's balance. -/
def creditOne (bal : List ((String × Nat) × Nat)) (addr : String) (aid : Nat) :
    List ((String × Nat) × Nat) :=
  ((addr, aid), balanceLookup bal addr aid + 1) :: bal

/-- Modelled from the spec: `get_event_details` (§4.2), a pure read returning
the record at a 1-based, contiguous `eventId`, absent otherwise.  The contract
is not among the repository sources. -/
def get_event_details (s : Ledger) (eventId : Nat) : Option EventRecord :=
  if eventId = 0 then none else s.events[eventId - 1]?

/-- Modelled from the spec: `get_total_events` (§4.2), a pure read. -/
def get_total_events (s : Ledger) : Nat := s.events.length

/-- Modelled from the spec: `is_club_registered` (§4.1), a pure read. -/
def is_club_registered (s : Ledger) (addr : String) : Bool :=
  match findClub s.clubs addr with
  | some _ => true
  | none => false

/-- Modelled from the spec: `get_club_name` (§4.1), a pure read. -/
def get_club_name (s : Ledger) (addr : String) : Option String :=
  (findClub s.clubs addr).map (fun c => c.name)

/-- Modelled from the spec: `register_club` (§4.1).  Fails `AlreadyRegistered`
when a record exists for the caller (precondition listed first), fails
`InvalidInput` on empty or over-bound `name`/`contact`, otherwise persists an
immutable `ClubRecord`.  The contract is not among the repository sources. -/
def register_club (s : Ledger) (caller name contact : String) :
    Except LedgerError Ledger :=
  match findClub s.clubs caller with
  | some _ => Except.error LedgerError.AlreadyRegistered
  | none =>
    if 0 < name.length ∧ name.length ≤ 64 ∧ 0 < contact.length ∧ contact.length ≤ 128 then
      Except.ok { s with clubs := s.clubs ++ [⟨caller, name, contact⟩] }
    else
      Except.error LedgerError.InvalidInput

/-- Modelled from the spec: `create_event` (§4.2).  Requires a registered
caller (`ClubNotRegistered`), a strictly future `date` (`EventInPast`),
`price > 0` (`InvalidPrice`) and `1 ≤ quantity ≤ MAX_TICKETS`
(`InvalidQuantity`), in that order; on success it atomically assigns the next
1-based `eventId`, mints a brand-new fixed-supply asset and stores the record
with `soldTickets = 0`.  The contract is not among the repository sources. -/
def create_event (s : Ledger) (caller name venue : String)
    (date price quantity : Nat) : Except LedgerError (Nat × Ledger) :=
  match findClub s.clubs caller with
  | none => Except.error LedgerError.ClubNotRegistered
  | some _ =>
    if date ≤ s.time then Except.error LedgerError.EventInPast
    else if price = 0 then Except.error LedgerError.InvalidPrice
    else if quantity = 0 ∨ MAX_TICKETS < quantity then
      Except.error LedgerError.InvalidQuantity
    else
      Except.ok (s.events.length + 1,
        { s with
          events := s.events ++
            [{ eventId := s.events.length + 1, ownerAddress := caller,
               name := name, venue := venue, eventDate := date,
               ticketPrice := price, totalTickets := quantity,
               soldTickets := 0, assetId := s.nextAssetId }],
          nextAssetId := s.nextAssetId + 1 })

/-- Modelled from the spec: `buy_ticket` (§4.3).  Looks up the event
(`EventNotFound`), verifies the attached payment against `ticketPrice` and the
ledger address (`PaymentMismatch`), performs the atomic check-and-increment of
`soldTickets` (`SoldOut`), requires the buyer's opt-in for the asset transfer
(`NotOptedIn`), and on success increments `soldTickets` and credits one asset
unit to the buyer, all-or-nothing.  The contract is not among the repository
sources. -/
def buy_ticket (s : Ledger) (buyer : String) (eventId : Nat)
    (payment : Payment) : Except LedgerError (Nat × Ledger) :=
  match get_event_details s eventId with
  | none => Except.error LedgerError.EventNotFound
  | some ev =>
    if payment.amount = ev.ticketPrice ∧ payment.receiver = s.appAddress then
      if ev.soldTickets < ev.totalTickets then
        if optedIn s.optIns buyer ev.assetId then
          Except.ok (ev.assetId,
            { s with
              events := s.events.set (eventId - 1)
                { ev with soldTickets := ev.soldTickets + 1 },
              balances := creditOne s.balances buyer ev.assetId })
        else Except.error LedgerError.NotOptedIn
      else Except.error LedgerError.SoldOut
    else Except.error LedgerError.PaymentMismatch

/-- Modelled from the spec: `verify_ticket` (§4.4), a pure read that resolves
the event's `assetId` and checks whether the holder's balance of that asset is
at least 1; it returns the boolean `false`, not an error, when the event does
not exist or the ticket is not held.  The contract is not among the repository
sources. -/
def verify_ticket (s : Ledger) (eventId : Nat) (holder : String) : Bool :=
  match get_event_details s eventId with
  | none => false
  | some ev => if 1 ≤ balanceLookup s.balances holder ev.assetId then true else false

/-- Modelled from the spec: the gateway-side asset opt-in (§6), a prerequisite
call made by the buyer against the gateway, not the ledger. -/
def asset_opt_in (s : Ledger) (caller : String) (assetId : Nat) : Ledger :=
  { s with optIns := (caller, assetId) :: s.optIns }

/-- A mutating call against the ledger or the gateway; reads have no state
effect and are not listed.  `tick` models the passage of ledger time. -/
inductive Op where
  | registerClub (caller name contact : String)
  | createEvent (caller name venue : String) (date price quantity : Nat)
  | optIn (caller : String) (assetId : Nat)
  | buyTicket (buyer : String) (eventId : Nat) (payment : Payment)
  | tick (dt : Nat)
deriving DecidableEq, Repr

/-- Apply one call to the ledger; a failed call leaves the state exactly as it
was (spec §7: the ledger never partially applies a mutating call). -/
def applyOp (s : Ledger) : Op → Ledger
  | Op.registerClub c n k =>
    match register_club s c n k with
    | Except.ok s' => s'
    | Except.error _ => s
  | Op.createEvent c n v d p q =>
    match create_event s c n v d p q with
    | Except.ok (_, s') => s'
    | Except.error _ => s
  | Op.optIn c a => asset_opt_in s c a
  | Op.buyTicket b e p =>
    match buy_ticket s b e p with
    | Except.ok (_, s') => s'
    | Except.error _ => s
  | Op.tick dt => { s with time := s.time + dt }

/-- Run a sequence of calls; per spec §5 every mutating call is a serializable,
indivisible unit, so any concurrent execution is some sequential order. -/
def exec (s : Ledger) : List Op → Ledger
  | [] => s
  | op :: ops => exec (applyOp s op) ops

/-- The empty ledger at deployment. -/
def initLedger (appAddr : String) (t0 : Nat) : Ledger :=
  { appAddress := appAddr, clubs := [], events := [], optIns := [],
    balances := [], time := t0, nextAssetId := 1 }

/-- The (buyer, eventId) pairs of the `buy_ticket` calls that succeed along a
run of the given call sequence. -/
def buyOk (s : Ledger) : Op → List (String × Nat)
  | Op.buyTicket b e p =>
    match buy_ticket s b e p with
    | Except.ok _ => [(b, e)]
    | Except.error _ => []
  | _ => []

/-- All successful purchases recorded along a run. -/
def purchaseLog (s : Ledger) : List Op → List (String × Nat)
  | [] => []
  | op :: ops => buyOk s op ++ purchaseLog (applyOp s op) ops

/-- The per-call results of a batch of `buy_ticket` calls against one event,
executed in the given serialization order (spec §5). -/
def buyResults (s : Ledger) (eventId : Nat) (payment : Payment) :
    List String → List (Except LedgerError Nat)
  | [] => []
  | b :: bs =>
    match buy_ticket s b eventId payment with
    | Except.ok (r, s') => Except.ok r :: buyResults s' eventId payment bs
    | Except.error e => Except.error e :: buyResults s eventId payment bs

/-- Whether a `buy_ticket` result is a success. -/
def isOkB : Except LedgerError Nat → Bool
  | Except.ok _ => true
  | Except.error _ => false

/-- Whether a `buy_ticket` result is the `SoldOut` failure. -/
def isSoldOutB : Except LedgerError Nat → Bool
  | Except.error LedgerError.SoldOut => true
  | _ => false

/-- Well-formedness of a ledger state, established at deployment and preserved
by every call: asset identifiers are minted from the counter, event records
sit at their own 1-based `eventId` with the assigned asset, `soldTickets`
stays within supply, positive balances only name assets of existing events,
and club records are unique per address. -/
def WF (s : Ledger) : Prop :=
  s.nextAssetId = s.events.length + 1 ∧
  (∀ i ev, s.events[i]? = some ev →
    ev.eventId = i + 1 ∧ ev.assetId = i + 1 ∧ ev.soldTickets ≤ ev.totalTickets) ∧
  (∀ addr aid, balanceLookup s.balances addr aid ≠ 0 →
    1 ≤ aid ∧ aid ≤ s.events.length) ∧
  List.Pairwise (fun a b => a.ownerAddress ≠ b.ownerAddress) s.clubs

/-- The demo event shape of src/projects/frontend/src/data/demoEvents.ts
(`price` is the displayed price in whole ALGO; `eventDate` is the Unix
timestamp the file computes from the calendar date). -/
structure DemoEvent where
  id : Nat
  title : String
  club : String
  date : String
  location : String
  price : Nat
  icon : String
  eventDate : Nat
deriving DecidableEq, Repr

/-- The DEMO_EVENTS list of src/projects/frontend/src/data/demoEvents.ts. -/
def DEMO_EVENTS : List DemoEvent :=
  [{ id := 1, title := "MLSC Club Hackathon: Hexpiration 2026",
     club := "MLSC Club", date := "Feb 28, 2026",
     location := "Tech Lab, Building A", price := 2, icon := "💻",
     eventDate := 1772236800 },
   { id := 2, title := "Earn & Sell: Campus Creators Market",
     club := "Entrepreneurship Club", date := "Mar 5, 2026",
     location := "Student Center, Hall B", price := 1, icon := "🎨",
     eventDate := 1772668800 },
   { id := 3, title := "DSA Bootcamp by GDSC",
     club := "Google Developer Student Club", date := "Mar 12, 2026",
     location := "Computer Lab, Block C", price := 3, icon := "📊",
     eventDate := 1773273600 },
   { id := 4, title := "NFT Art Battle – Fine Arts Club",
     club := "Fine Arts Club", date := "Mar 20, 2026",
     location := "Art Gallery, East Wing", price := 2, icon := "🖼️",
     eventDate := 1773964800 },
   { id := 5, title := "Blockchain Basics for Freshers",
     club := "Crypto & Blockchain Club", date := "Mar 25, 2026",
     location := "Auditorium, Main Campus", price := 1, icon := "⛓️",
     eventDate := 1774396800 }]

/-- The payment transaction handleRegisterNow (EventCard.tsx) attaches to its
buyTicket call: microAlgos(1_000) sent to client.appAddress, independent of
the demo event passed in. -/
def handleRegisterNow_payment (appAddress : String) (_event : DemoEvent) :
    Payment :=
  { amount := 1000, receiver := appAddress }

/-- A transaction submitted by the standard buy flow of BuyTicket.tsx. -/
inductive FrontendTxn where
  | assetOptIn (sender : String) (assetId : Nat)
  | pay (sender receiver : String) (amount : Nat)
  | appCallBuyTicket (sender : String) (eventId : Nat)
deriving DecidableEq, Repr

/-- Translation of handleBuyTicket (BuyTicket.tsx): it reads the buyer's
account asset list; when the ticket asset is absent it first sends an asset
opt-in signed by the buyer, then it creates the payment of the event's
ticketPrice to client.appAddress and calls buyTicket. -/
def handleBuyTicket_txns (activeAddress : String) (accountAssets : List Nat)
    (eventId assetId ticketPrice : Nat) (appAddress : String) :
    List FrontendTxn :=
  let hasOptedIn := accountAssets.contains assetId
  (if hasOptedIn then [] else [FrontendTxn.assetOptIn activeAddress assetId]) ++
    [FrontendTxn.pay activeAddress appAddress ticketPrice,
     FrontendTxn.appCallBuyTicket activeAddress eventId]

/-- A concrete run used to instantiate the theorems: one club registers,
creates a two-ticket event priced 3,000,000 microAlgos dated 100, two buyers
opt in to its asset, and the first buyer purchases one ticket. -/
def sampleOps : List Op :=
  [Op.registerClub "CLUB" "MLSC" "mlsc@campus.edu",
   Op.createEvent "CLUB" "Hexpiration" "Lab A" 100 3000000 2,
   Op.optIn "BUYER" 1,
   Op.optIn "RIVAL" 1,
   Op.buyTicket "BUYER" 1 { amount := 3000000, receiver := "APP" }]

/-- The ledger state reached by the sample run. -/
def sampleLedger : Ledger := exec (initLedger "APP" 0) sampleOps

/-- The event record stored in the sample ledger after one sale. -/
def sampleEvent : EventRecord :=
  { eventId := 1, ownerAddress := "CLUB", name := "Hexpiration",
    venue := "Lab A", eventDate := 100, ticketPrice := 3000000,
    totalTickets := 2, soldTickets := 1, assetId := 1 }

lemma get_event_details_some {s : Ledger} {eid : Nat} {ev : EventRecord}
    (h : get_event_details s eid = some ev) :
    1 ≤ eid ∧ eid - 1 < s.events.length ∧ s.events[eid - 1]? = some ev := by
  unfold get_event_details at h
  by_cases h0 : eid = 0
  · simp [h0] at h
  · rw [if_neg h0] at h
    refine ⟨by omega, ?_, h⟩
    exact (List.getElem?_eq_some.mp h).1

lemma get_event_details_events_eq {s s' : Ledger} (h : s'.events = s.events)
    (eid : Nat) : get_event_details s' eid = get_event_details s eid := by
  unfold get_event_details
  rw [h]

lemma findClub_none {clubs : List ClubRecord} {addr : String}
    (h : findClub clubs addr = none) : ∀ c ∈ clubs, c.ownerAddress ≠ addr := by
  induction clubs with
  | nil => intro c hc; simp at hc
  | cons c rest ih =>
    intro d hd
    unfold findClub at h
    by_cases hc : c.ownerAddress = addr
    · rw [if_pos hc] at h; exact absurd h (by simp)
    · rw [if_neg hc] at h
      rcases List.mem_cons.mp hd with rfl | hmem
      · exact hc
      · exact ih h d hmem

lemma findClub_of_mem {clubs : List ClubRecord} {c : ClubRecord}
    (hmem : c ∈ clubs) : ∃ d, findClub clubs c.ownerAddress = some d := by
  induction clubs with
  | nil => simp at hmem
  | cons a rest ih =>
    unfold findClub
    by_cases ha : a.ownerAddress = c.ownerAddress
    · exact ⟨a, if_pos ha⟩
    · rw [if_neg ha]
      rcases List.mem_cons.mp hmem with rfl | hmem'
      · exact absurd rfl ha
      · exact ih hmem'

lemma balanceLookup_creditOne (bal : List ((String × Nat) × Nat))
    (addr : String) (aid : Nat) (addr' : String) (aid' : Nat) :
    balanceLookup (creditOne bal addr aid) addr' aid' =
      if addr = addr' ∧ aid = aid' then balanceLookup bal addr aid + 1
      else balanceLookup bal addr' aid' := rfl

lemma buy_ticket_ok_inv {s : Ledger} {b : String} {eid : Nat} {p : Payment}
    {r : Nat} {s' : Ledger} (h : buy_ticket s b eid p = Except.ok (r, s')) :
    ∃ ev, get_event_details s eid = some ev ∧
      p.amount = ev.ticketPrice ∧ p.receiver = s.appAddress ∧
      ev.soldTickets < ev.totalTickets ∧ optedIn s.optIns b ev.assetId = true ∧
      r = ev.assetId ∧
      s' = { s with
        events := s.events.set (eid - 1) { ev with soldTickets := ev.soldTickets + 1 },
        balances := creditOne s.balances b ev.assetId } := by
  cases hev : get_event_details s eid with
  | none => simp only [buy_ticket, hev] at h; exact absurd h (by simp)
  | some ev =>
    simp only [buy_ticket, hev] at h
    by_cases h1 : p.amount = ev.ticketPrice ∧ p.receiver = s.appAddress
    · rw [if_pos h1] at h
      by_cases h2 : ev.soldTickets < ev.totalTickets
      · rw [if_pos h2] at h
        by_cases h3 : optedIn s.optIns b ev.assetId = true
        · rw [if_pos h3] at h
          simp only [Except.ok.injEq, Prod.mk.injEq] at h
          exact ⟨ev, rfl, h1.1, h1.2, h2, h3, h.1.symm, h.2.symm⟩
        · rw [if_neg h3] at h; exact absurd h (by simp)
      · rw [if_neg h2] at h; exact absurd h (by simp)
    · rw [if_neg h1] at h; exact absurd h (by simp)

lemma buy_ticket_ok_eq {s : Ledger} {b : String} {eid : Nat} {p : Payment}
    {ev : EventRecord} (hev : get_event_details s eid = some ev)
    (hpa : p.amount = ev.ticketPrice) (hpr : p.receiver = s.appAddress)
    (hroom : ev.soldTickets < ev.totalTickets)
    (hopt : optedIn s.optIns b ev.assetId = true) :
    buy_ticket s b eid p = Except.ok (ev.assetId,
      { s with
        events := s.events.set (eid - 1) { ev with soldTickets := ev.soldTickets + 1 },
        balances := creditOne s.balances b ev.assetId }) := by
  simp only [buy_ticket, hev]
  rw [if_pos ⟨hpa, hpr⟩, if_pos hroom, if_pos hopt]

lemma buy_ticket_soldOut {s : Ledger} (b : String) {eid : Nat} {p : Payment}
    {ev : EventRecord} (hev : get_event_details s eid = some ev)
    (hpa : p.amount = ev.ticketPrice) (hpr : p.receiver = s.appAddress)
    (hfull : ¬ ev.soldTickets < ev.totalTickets) :
    buy_ticket s b eid p = Except.error LedgerError.SoldOut := by
  simp only [buy_ticket, hev]
  rw [if_pos ⟨hpa, hpr⟩, if_neg hfull]

lemma register_club_ok_inv {s : Ledger} {caller n c : String} {s' : Ledger}
    (h : register_club s caller n c = Except.ok s') :
    findClub s.clubs caller = none ∧
    (0 < n.length ∧ n.length ≤ 64 ∧ 0 < c.length ∧ c.length ≤ 128) ∧
    s' = { s with clubs := s.clubs ++ [⟨caller, n, c⟩] } := by
  cases hf : findClub s.clubs caller with
  | some d => simp only [register_club, hf] at h; exact absurd h (by simp)
  | none =>
    simp only [register_club, hf] at h
    by_cases hv : 0 < n.length ∧ n.length ≤ 64 ∧ 0 < c.length ∧ c.length ≤ 128
    · rw [if_pos hv] at h
      simp only [Except.ok.injEq] at h
      exact ⟨rfl, hv, h.symm⟩
    · rw [if_neg hv] at h; exact absurd h (by simp)

lemma create_event_ok_inv {s : Ledger} {caller n v : String} {d p q : Nat}
    {eid : Nat} {s' : Ledger}
    (h : create_event s caller n v d p q = Except.ok (eid, s')) :
    (∃ c, findClub s.clubs caller = some c) ∧
    s.time < d ∧ 0 < p ∧ 1 ≤ q ∧ q ≤ MAX_TICKETS ∧
    eid = s.events.length + 1 ∧
    s' = { s with
      events := s.events ++
        [{ eventId := s.events.length + 1, ownerAddress := caller,
           name := n, venue := v, eventDate := d, ticketPrice := p,
           totalTickets := q, soldTickets := 0, assetId := s.nextAssetId }],
      nextAssetId := s.nextAssetId + 1 } := by
  cases hf : findClub s.clubs caller with
  | none => simp only [create_event, hf] at h; exact absurd h (by simp)
  | some cl =>
    simp only [create_event, hf] at h
    by_cases h1 : d ≤ s.time
    · rw [if_pos h1] at h; exact absurd h (by simp)
    · rw [if_neg h1] at h
      by_cases h2 : p = 0
      · rw [if_pos h2] at h; exact absurd h (by simp)
      · rw [if_neg h2] at h
        by_cases h3 : q = 0 ∨ MAX_TICKETS < q
        · rw [if_pos h3] at h; exact absurd h (by simp)
        · rw [if_neg h3] at h
          simp only [Except.ok.injEq, Prod.mk.injEq] at h
          exact ⟨⟨cl, rfl⟩, by omega, by omega, by omega, by omega,
            h.1.symm, h.2.symm⟩

lemma applyOp_appAddress (s : Ledger) (op : Op) :
    (applyOp s op).appAddress = s.appAddress := by
  cases op with
  | registerClub c n k =>
    cases hr : register_club s c n k with
    | error e => simp only [applyOp, hr]
    | ok s' =>
      obtain ⟨-, -, hs'⟩ := register_club_ok_inv hr
      simp only [applyOp, hr, hs']
  | createEvent c n v d p q =>
    cases hr : create_event s c n v d p q with
    | error e => simp only [applyOp, hr]
    | ok pr =>
      obtain ⟨eid, s'⟩ := pr
      obtain ⟨-, -, -, -, -, -, hs'⟩ := create_event_ok_inv hr
      simp only [applyOp, hr, hs']
  | optIn c a => simp only [applyOp, asset_opt_in]
  | buyTicket b e pmt =>
    cases hr : buy_ticket s b e pmt with
    | error e => simp only [applyOp, hr]
    | ok pr =>
      obtain ⟨r, s'⟩ := pr
      obtain ⟨ev, -, -, -, -, -, -, hs'⟩ := buy_ticket_ok_inv hr
      simp only [applyOp, hr, hs']
  | tick dt => simp only [applyOp]

lemma applyOp_clubs_mem {s : Ledger} (op : Op) {c : ClubRecord}
    (h : c ∈ s.clubs) : c ∈ (applyOp s op).clubs := by
  cases op with
  | registerClub c' n k =>
    cases hr : register_club s c' n k with
    | error e => simp only [applyOp, hr]; exact h
    | ok s' =>
      obtain ⟨-, -, hs'⟩ := register_club_ok_inv hr
      simp only [applyOp, hr, hs']
      exact List.mem_append_left _ h
  | createEvent c' n v d p q =>
    cases hr : create_event s c' n v d p q with
    | error e => simp only [applyOp, hr]; exact h
    | ok pr =>
      obtain ⟨eid, s'⟩ := pr
      obtain ⟨-, -, -, -, -, -, hs'⟩ := create_event_ok_inv hr
      simp only [applyOp, hr, hs']
      exact h
  | optIn c' a => simp only [applyOp, asset_opt_in]; exact h
  | buyTicket b e pmt =>
    cases hr : buy_ticket s b e pmt with
    | error e => simp only [applyOp, hr]; exact h
    | ok pr =>
      obtain ⟨r, s'⟩ := pr
      obtain ⟨ev, -, -, -, -, -, -, hs'⟩ := buy_ticket_ok_inv hr
      simp only [applyOp, hr, hs']
      exact h
  | tick dt => simp only [applyOp]; exact h

lemma WF_init (a : String) (t : Nat) : WF (initLedger a t) := by
  refine ⟨rfl, ?_, ?_, ?_⟩
  · intro i ev h
    simp [initLedger] at h
  · intro addr aid h
    simp [initLedger, balanceLookup] at h
  · simp [initLedger]

lemma WF_applyOp {s : Ledger} (hWF : WF s) (op : Op) : WF (applyOp s op) := by
  obtain ⟨hA, hIdx, hBal, hClubs⟩ := hWF
  cases op with
  | registerClub c n k =>
    cases hr : register_club s c n k with
    | error e => simp only [applyOp, hr]; exact ⟨hA, hIdx, hBal, hClubs⟩
    | ok s' =>
      obtain ⟨hnone, -, hs'⟩ := register_club_ok_inv hr
      simp only [applyOp, hr, hs']
      refine ⟨hA, hIdx, hBal, ?_⟩
      rw [List.pairwise_append]
      refine ⟨hClubs, List.pairwise_singleton _ _, ?_⟩
      intro x hx y hy
      rw [List.mem_singleton] at hy
      subst hy
      exact findClub_none hnone x hx
  | createEvent c n v d p q =>
    cases hr : create_event s c n v d p q with
    | error e => simp only [applyOp, hr]; exact ⟨hA, hIdx, hBal, hClubs⟩
    | ok pr =>
      obtain ⟨eid, s'⟩ := pr
      obtain ⟨-, -, -, hq1, -, -, hs'⟩ := create_event_ok_inv hr
      simp only [applyOp, hr, hs']
      refine ⟨?_, ?_, ?_, hClubs⟩
      · simp only [List.length_append, List.length_singleton, hA]
      · intro i ev hget
        rw [List.getElem?_append] at hget
        by_cases hi : i < s.events.length
        · rw [if_pos hi] at hget
          exact hIdx i ev hget
        · rw [if_neg hi] at hget
          cases hj : i - s.events.length with
          | zero =>
            rw [hj] at hget
            simp only [List.getElem?_cons_zero, Option.some.injEq] at hget
            subst hget
            have hi' : i = s.events.length := by omega
            subst hi'
            exact ⟨rfl, by rw [hA], Nat.zero_le q⟩
          | succ m =>
            rw [hj] at hget
            simp at hget
      · intro addr aid hbal
        have := hBal addr aid hbal
        simp only [List.length_append, List.length_singleton]
        omega
  | optIn c a =>
    simp only [applyOp, asset_opt_in]
    exact ⟨hA, hIdx, hBal, hClubs⟩
  | buyTicket b e pmt =>
    cases hr : buy_ticket s b e pmt with
    | error e' => simp only [applyOp, hr]; exact ⟨hA, hIdx, hBal, hClubs⟩
    | ok pr =>
      obtain ⟨r, s'⟩ := pr
      obtain ⟨ev, hev, hpa, hpr', hroom, hopt, -, hs'⟩ := buy_ticket_ok_inv hr
      obtain ⟨he1, hlt, hgetev⟩ := get_event_details_some hev
      obtain ⟨hid, haid, hsle⟩ := hIdx (e - 1) ev hgetev
      simp only [applyOp, hr, hs']
      refine ⟨?_, ?_, ?_, hClubs⟩
      · simp only [List.length_set, hA]
      · intro i ev' hget
        rw [List.getElem?_set] at hget
        by_cases hi : e - 1 = i
        · rw [if_pos hi, if_pos (hi ▸ hlt)] at hget
          simp only [Option.some.injEq] at hget
          subst hget
          subst hi
          exact ⟨hid, haid, hroom⟩
        · rw [if_neg hi] at hget
          exact hIdx i ev' hget
      · intro addr aid hbal
        rw [balanceLookup_creditOne] at hbal
        simp only [List.length_set]
        by_cases hba : b = addr ∧ ev.assetId = aid
        · obtain ⟨-, rfl⟩ := hba
          constructor
          · omega
          · omega
        · rw [if_neg hba] at hbal
          exact hBal addr aid hbal
  | tick dt =>
    simp only [applyOp]
    exact ⟨hA, hIdx, hBal, hClubs⟩

lemma WF_exec (ops : List Op) : ∀ s : Ledger, WF s → WF (exec s ops) := by
  induction ops with
  | nil => intro s h; exact h
  | cons op rest ih =>
    intro s h
    exact ih (applyOp s op) (WF_applyOp h op)

lemma WF_exec_init (a : String) (t : Nat) (ops : List Op) :
    WF (exec (initLedger a t) ops) :=
  WF_exec ops _ (WF_init a t)

lemma sold_out_frozen {s : Ledger} {eid : Nat} {ev : EventRecord}
    (hev : get_event_details s eid = some ev)
    (hfull : ev.soldTickets = ev.totalTickets) (op : Op) :
    get_event_details (applyOp s op) eid = some ev := by
  obtain ⟨he1, hlt, hget⟩ := get_event_details_some hev
  cases op with
  | registerClub c n k =>
    cases hr : register_club s c n k with
    | error e => simp only [applyOp, hr]; exact hev
    | ok s' =>
      obtain ⟨-, -, hs'⟩ := register_club_ok_inv hr
      simp only [applyOp, hr, hs']
      exact hev
  | createEvent c n v d p q =>
    cases hr : create_event s c n v d p q with
    | error e => simp only [applyOp, hr]; exact hev
    | ok pr =>
      obtain ⟨eid', s'⟩ := pr
      obtain ⟨-, -, -, -, -, -, hs'⟩ := create_event_ok_inv hr
      simp only [applyOp, hr, hs', get_event_details]
      rw [if_neg (by omega : ¬ eid = 0)]
      rw [List.getElem?_append, if_pos hlt]
      exact hget
  | optIn c a =>
    simp only [applyOp, asset_opt_in]
    exact hev
  | buyTicket b e' pmt =>
    cases hr : buy_ticket s b e' pmt with
    | error e => simp only [applyOp, hr]; exact hev
    | ok pr =>
      obtain ⟨r, s'⟩ := pr
      obtain ⟨ev₂, hev₂, -, -, hroom₂, -, -, hs'⟩ := buy_ticket_ok_inv hr
      by_cases heq : e' = eid
      · subst heq
        rw [hev] at hev₂
        simp only [Option.some.injEq] at hev₂
        subst hev₂
        omega
      · obtain ⟨he1', -, -⟩ := get_event_details_some hev₂
        simp only [applyOp, hr, hs', get_event_details]
        rw [if_neg (by omega : ¬ eid = 0)]
        rw [List.getElem?_set_ne (by omega : e' - 1 ≠ eid - 1)]
        exact hget
  | tick dt =>
    simp only [applyOp]
    exact hev

lemma buyResults_counts (buyers : List String) :
    ∀ (s : Ledger) (eid : Nat) (ev : EventRecord) (p : Payment),
      get_event_details s eid = some ev →
      ev.soldTickets ≤ ev.totalTickets →
      (∀ b ∈ buyers, optedIn s.optIns b ev.assetId = true) →
      p.amount = ev.ticketPrice →
      p.receiver = s.appAddress →
      (buyResults s eid p buyers).countP isOkB
          = min (ev.totalTickets - ev.soldTickets) buyers.length ∧
      (buyResults s eid p buyers).countP isSoldOutB
          = buyers.length - (ev.totalTickets - ev.soldTickets) ∧
      ∀ r ∈ buyResults s eid p buyers,
        isOkB r = true ∨ r = Except.error LedgerError.SoldOut := by
  induction buyers with
  | nil =>
    intro s eid ev p hev hsle hopt hpa hpr
    refine ⟨?_, ?_, ?_⟩ <;> simp [buyResults]
  | cons b bs ih =>
    intro s eid ev p hev hsle hopt hpa hpr
    obtain ⟨he1, hlt, hget⟩ := get_event_details_some hev
    by_cases hroom : ev.soldTickets < ev.totalTickets
    · have hbuy := buy_ticket_ok_eq hev hpa hpr hroom (hopt b (List.mem_cons_self b bs))
      simp only [buyResults, hbuy]
      have hev' : get_event_details
          { s with
            events := s.events.set (eid - 1) { ev with soldTickets := ev.soldTickets + 1 },
            balances := creditOne s.balances b ev.assetId } eid
          = some { ev with soldTickets := ev.soldTickets + 1 } := by
        simp only [get_event_details]
        rw [if_neg (by omega : ¬ eid = 0)]
        rw [List.getElem?_set]
        rw [if_pos rfl, if_pos hlt]
      obtain ⟨h1, h2, h3⟩ := ih _ eid { ev with soldTickets := ev.soldTickets + 1 } p hev'
        (by dsimp only; omega)
        (fun b' hb' => hopt b' (List.mem_cons_of_mem _ hb'))
        hpa hpr
      dsimp only at h1 h2
      refine ⟨?_, ?_, ?_⟩
      · rw [List.countP_cons, h1]
        simp [isOkB]
        omega
      · rw [List.countP_cons, h2]
        simp [isSoldOutB]
        omega
      · intro r hr
        rcases List.mem_cons.mp hr with rfl | hr'
        · exact Or.inl rfl
        · exact h3 r hr'
    · have hbuy := buy_ticket_soldOut b hev hpa hpr hroom
      simp only [buyResults, hbuy]
      obtain ⟨h1, h2, h3⟩ := ih s eid ev p hev hsle
        (fun b' hb' => hopt b' (List.mem_cons_of_mem _ hb'))
        hpa hpr
      refine ⟨?_, ?_, ?_⟩
      · rw [List.countP_cons, h1]
        simp [isOkB]
        omega
      · rw [List.countP_cons, h2]
        simp [isSoldOutB]
        omega
      · intro r hr
        rcases List.mem_cons.mp hr with rfl | hr'
        · exact Or.inr rfl
        · exact h3 r hr'

lemma verify_ticket_true_iff (s : Ledger) (eid : Nat) (holder : String) :
    verify_ticket s eid holder = true ↔
      ∃ ev, get_event_details s eid = some ev ∧
        1 ≤ balanceLookup s.balances holder ev.assetId := by
  cases hev : get_event_details s eid with
  | none => simp only [verify_ticket, hev]; simp
  | some ev =>
    simp only [verify_ticket, hev]
    by_cases hb : 1 ≤ balanceLookup s.balances holder ev.assetId
    · simp [hb]
    · simp [hb]

lemma verify_step {s : Ledger} (hWF : WF s) (op : Op) {addr : String} {eid : Nat}
    (h : verify_ticket (applyOp s op) eid addr = true) :
    verify_ticket s eid addr = true ∨ (addr, eid) ∈ buyOk s op := by
  obtain ⟨hA, hIdx, hBal, hClubs⟩ := hWF
  cases op with
  | registerClub c n k =>
    cases hr : register_club s c n k with
    | error e => rw [applyOp] at h; rw [hr] at h; exact Or.inl h
    | ok s' =>
      obtain ⟨-, -, hs'⟩ := register_club_ok_inv hr
      rw [applyOp] at h; rw [hr, hs'] at h
      exact Or.inl h
  | createEvent c n v d p q =>
    cases hr : create_event s c n v d p q with
    | error e => rw [applyOp] at h; rw [hr] at h; exact Or.inl h
    | ok pr =>
      obtain ⟨eid', s'⟩ := pr
      obtain ⟨-, -, -, -, -, -, hs'⟩ := create_event_ok_inv hr
      simp only [applyOp, hr] at h
      rw [hs'] at h
      rw [verify_ticket_true_iff] at h
      obtain ⟨ev', hev', hbal⟩ := h
      dsimp only at hbal
      obtain ⟨he1, hlt, hget⟩ := get_event_details_some hev'
      simp only [List.length_append, List.length_singleton] at hlt
      dsimp only at hget
      rw [List.getElem?_append] at hget
      by_cases hi : eid - 1 < s.events.length
      · rw [if_pos hi] at hget
        refine Or.inl ?_
        rw [verify_ticket_true_iff]
        refine ⟨ev', ?_, hbal⟩
        rw [get_event_details, if_neg (by omega : ¬ eid = 0)]
        exact hget
      · rw [if_neg hi] at hget
        have hz : eid - 1 - s.events.length = 0 := by omega
        rw [hz] at hget
        simp only [List.getElem?_cons_zero, Option.some.injEq] at hget
        have haid : ev'.assetId = s.nextAssetId := by rw [← hget]
        have hne : balanceLookup s.balances addr ev'.assetId ≠ 0 := by omega
        have := hBal addr ev'.assetId hne
        omega
  | optIn c a =>
    rw [applyOp] at h
    rw [asset_opt_in] at h
    exact Or.inl h
  | buyTicket b e' pmt =>
    cases hr : buy_ticket s b e' pmt with
    | error e => rw [applyOp] at h; rw [hr] at h; exact Or.inl h
    | ok pr =>
      obtain ⟨r, s'⟩ := pr
      obtain ⟨ev, hev, -, -, hroom, -, -, hs'⟩ := buy_ticket_ok_inv hr
      obtain ⟨he1', hlt', hget'⟩ := get_event_details_some hev
      have haidev : ev.assetId = e' := by
        have := (hIdx (e' - 1) ev hget').2.1
        omega
      simp only [applyOp, hr] at h
      rw [hs'] at h
      rw [verify_ticket_true_iff] at h
      obtain ⟨ev', hev', hbal⟩ := h
      obtain ⟨he1, hlt, hget⟩ := get_event_details_some hev'
      simp only [List.length_set] at hlt
      dsimp only at hget
      rw [List.getElem?_set] at hget
      dsimp only at hbal
      rw [balanceLookup_creditOne] at hbal
      by_cases hba : b = addr ∧ ev.assetId = ev'.assetId
      · -- the credited entry is the one the verifier reads: the buyer and
        -- the bought event's asset coincide with the queried ones
        have haid' : ev'.assetId = eid := by
          by_cases hi : e' - 1 = eid - 1
          · rw [if_pos hi, if_pos (hi ▸ hlt')] at hget
            simp only [Option.some.injEq] at hget
            rw [← hget]
            simp only
            omega
          · rw [if_neg hi] at hget
            have := (hIdx (eid - 1) ev' hget).2.1
            omega
        have : e' = eid := by omega
        subst this
        refine Or.inr ?_
        simp only [buyOk, hr]
        simp [hba.1]
      · rw [if_neg hba] at hbal
        refine Or.inl ?_
        rw [verify_ticket_true_iff]
        by_cases hi : e' - 1 = eid - 1
        · have : e' = eid := by omega
          subst this
          rw [if_pos rfl, if_pos hlt'] at hget
          simp only [Option.some.injEq] at hget
          refine ⟨ev, hev, ?_⟩
          have : ev'.assetId = ev.assetId := by rw [← hget]
          rw [← this]
          exact hbal
        · rw [if_neg hi] at hget
          refine ⟨ev', ?_, hbal⟩
          rw [get_event_details, if_neg (by omega : ¬ eid = 0)]
          exact hget
  | tick dt =>
    rw [applyOp] at h
    exact Or.inl h

lemma verify_exec (ops : List Op) :
    ∀ s : Ledger, WF s → ∀ (addr : String) (eid : Nat),
      verify_ticket (exec s ops) eid addr = true →
      verify_ticket s eid addr = true ∨ (addr, eid) ∈ purchaseLog s ops := by
  induction ops with
  | nil => intro s _ addr eid h; exact Or.inl h
  | cons op rest ih =>
    intro s hWF addr eid h
    rcases ih (applyOp s op) (WF_applyOp hWF op) addr eid h with h' | h'
    · rcases verify_step hWF op h' with h'' | h''
      · exact Or.inl h''
      · refine Or.inr ?_
        simp only [purchaseLog]
        exact List.mem_append_left _ h''
    · refine Or.inr ?_
      simp only [purchaseLog]
      exact List.mem_append_right _ h'

lemma verify_init_false (a : String) (t : Nat) (eid : Nat) (addr : String) :
    verify_ticket (initLedger a t) eid addr = false := by
  cases hev : get_event_details (initLedger a t) eid with
  | none => simp only [verify_ticket, hev]
  | some ev =>
    exfalso
    obtain ⟨-, hlt, -⟩ := get_event_details_some hev
    simp [initLedger] at hlt

/-- C1: in every reachable ledger state, every event record satisfies
0 ≤ soldTickets ≤ totalTickets; and once soldTickets equals totalTickets no
operation ever changes the record again, so neither field increases and the
event is permanently sold out (no restock). -/
theorem C1_sold_tickets_bounded_no_restock (a : String) (t : Nat)
    (ops : List Op) (eid : Nat) (ev : EventRecord)
    (hev : get_event_details (exec (initLedger a t) ops) eid = some ev) :
    (0 ≤ ev.soldTickets ∧ ev.soldTickets ≤ ev.totalTickets) ∧
    (ev.soldTickets = ev.totalTickets →
      ∀ op : Op,
        get_event_details (applyOp (exec (initLedger a t) ops) op) eid
          = some ev) := by
  obtain ⟨-, hIdx, -, -⟩ := WF_exec_init a t ops
  obtain ⟨-, -, hget⟩ := get_event_details_some hev
  exact ⟨⟨Nat.zero_le _, (hIdx _ ev hget).2.2⟩,
    fun hfull op => sold_out_frozen hev hfull op⟩

/-- C1 witness: the sample run's event, sold 1 of 2, satisfies the bounds. -/
theorem C1_witness :
    0 ≤ sampleEvent.soldTickets ∧
    sampleEvent.soldTickets ≤ sampleEvent.totalTickets :=
  (C1_sold_tickets_bounded_no_restock "APP" 0 sampleOps 1 sampleEvent
    (by decide)).1

/-- C2: against an event with exactly K remaining tickets, any serialization
of N > K buy_ticket calls by opted-in buyers with matching payments yields
exactly K successes; the other N − K calls fail with SoldOut, and no other
outcome occurs.  With one unit left and two racing buyers, exactly one wins
and the other observes SoldOut. -/
theorem C2_concurrent_buys_exactly_K_succeed (s : Ledger) (eid : Nat)
    (ev : EventRecord) (p : Payment) (buyers : List String) (K N : Nat)
    (hev : get_event_details s eid = some ev)
    (hsle : ev.soldTickets ≤ ev.totalTickets)
    (hK : ev.totalTickets - ev.soldTickets = K)
    (hN : buyers.length = N)
    (hKN : K < N)
    (hopt : ∀ b ∈ buyers, optedIn s.optIns b ev.assetId = true)
    (hpa : p.amount = ev.ticketPrice)
    (hpr : p.receiver = s.appAddress) :
    (buyResults s eid p buyers).countP isOkB = K ∧
    (buyResults s eid p buyers).countP isSoldOutB = N - K ∧
    ∀ r ∈ buyResults s eid p buyers,
      isOkB r = true ∨ r = Except.error LedgerError.SoldOut := by
  obtain ⟨h1, h2, h3⟩ := buyResults_counts buyers s eid ev p hev hsle hopt hpa hpr
  subst hK
  subst hN
  refine ⟨?_, h2, h3⟩
  rw [h1]
  omega

/-- C2 witness: in the sample ledger one ticket remains; two racing buyers
produce exactly one success and one SoldOut. -/
theorem C2_witness :
    (buyResults sampleLedger 1 { amount := 3000000, receiver := "APP" }
      ["BUYER", "RIVAL"]).countP isOkB = 1 ∧
    (buyResults sampleLedger 1 { amount := 3000000, receiver := "APP" }
      ["BUYER", "RIVAL"]).countP isSoldOutB = 2 - 1 ∧
    ∀ r ∈ buyResults sampleLedger 1 { amount := 3000000, receiver := "APP" }
      ["BUYER", "RIVAL"],
      isOkB r = true ∨ r = Except.error LedgerError.SoldOut :=
  C2_concurrent_buys_exactly_K_succeed sampleLedger 1 sampleEvent
    { amount := 3000000, receiver := "APP" } ["BUYER", "RIVAL"] 1 2
    (by decide) (by decide) (by decide) (by decide) (by decide)
    (by decide) (by decide) (by decide)

/-- C3: a buy_ticket call on an existing event whose payment amount differs
from the event's ticketPrice, or whose receiver is not the ledger address,
fails with PaymentMismatch and leaves the ledger state — in particular the
event's soldTickets — unchanged. -/
theorem C3_payment_mismatch_rejected (s : Ledger) (b : String) (eid : Nat)
    (p : Payment) (ev : EventRecord)
    (hev : get_event_details s eid = some ev)
    (hbad : p.amount ≠ ev.ticketPrice ∨ p.receiver ≠ s.appAddress) :
    buy_ticket s b eid p = Except.error LedgerError.PaymentMismatch ∧
    applyOp s (Op.buyTicket b eid p) = s := by
  have herr : buy_ticket s b eid p = Except.error LedgerError.PaymentMismatch := by
    simp only [buy_ticket, hev]
    rw [if_neg (by tauto)]
  exact ⟨herr, by simp only [applyOp, herr]⟩

/-- C3 witness: paying one microAlgo below the sample event's price fails
with PaymentMismatch and changes nothing. -/
theorem C3_witness :
    buy_ticket sampleLedger "RIVAL" 1 { amount := 2999999, receiver := "APP" }
      = Except.error LedgerError.PaymentMismatch ∧
    applyOp sampleLedger
      (Op.buyTicket "RIVAL" 1 { amount := 2999999, receiver := "APP" })
      = sampleLedger :=
  C3_payment_mismatch_rejected sampleLedger "RIVAL" 1
    { amount := 2999999, receiver := "APP" } sampleEvent
    (by decide) (Or.inl (by decide))

/-- C4: immediately after a buy_ticket call succeeds, verify_ticket returns
true for that buyer and event; and over any run from the initial ledger, an
address that never successfully purchased a ticket for the event gets
verify_ticket = false. -/
theorem C4_verify_roundtrip (a : String) (t : Nat) (ops : List Op)
    (addr : String) (eid : Nat) :
    (∀ (s : Ledger) (b : String) (p : Payment) (r : Nat) (s' : Ledger),
      buy_ticket s b eid p = Except.ok (r, s') →
      verify_ticket s' eid b = true) ∧
    ((addr, eid) ∉ purchaseLog (initLedger a t) ops →
      verify_ticket (exec (initLedger a t) ops) eid addr = false) := by
  constructor
  · intro s b p r s' hok
    obtain ⟨ev, hev, -, -, -, -, -, hs'⟩ := buy_ticket_ok_inv hok
    obtain ⟨he1, hlt, hget⟩ := get_event_details_some hev
    subst hs'
    rw [verify_ticket_true_iff]
    refine ⟨{ ev with soldTickets := ev.soldTickets + 1 }, ?_, ?_⟩
    · rw [get_event_details, if_neg (by omega : ¬ eid = 0)]
      dsimp only
      rw [List.getElem?_set, if_pos rfl, if_pos hlt]
    · dsimp only
      rw [balanceLookup_creditOne, if_pos ⟨rfl, rfl⟩]
      omega
  · intro hnot
    cases hb : verify_ticket (exec (initLedger a t) ops) eid addr
    · rfl
    · exfalso
      rcases verify_exec ops (initLedger a t) (WF_init a t) addr eid hb with hv | hv
      · rw [verify_init_false] at hv
        exact absurd hv (by simp)
      · exact hnot hv

/-- C4 witness: in the sample run, RIVAL never purchased for event 1 and
verify_ticket answers false for it. -/
theorem C4_witness : verify_ticket sampleLedger 1 "RIVAL" = false :=
  (C4_verify_roundtrip "APP" 0 sampleOps "RIVAL" 1).2 (by decide)

/-- C5: verify_ticket returns the boolean false — never an error — both when
the event does not exist and when the holder's balance of the event's asset
is below 1, and it returns true exactly when that balance is at least 1; as a
pure function of the ledger state it modifies nothing. -/
theorem C5_verify_total_boolean (s : Ledger) (eid : Nat) (addr : String) :
    (get_event_details s eid = none → verify_ticket s eid addr = false) ∧
    (∀ ev, get_event_details s eid = some ev →
      (balanceLookup s.balances addr ev.assetId < 1 →
        verify_ticket s eid addr = false) ∧
      (verify_ticket s eid addr = true ↔
        1 ≤ balanceLookup s.balances addr ev.assetId)) := by
  constructor
  · intro hnone
    simp only [verify_ticket, hnone]
  · intro ev hev
    constructor
    · intro hlt
      simp only [verify_ticket, hev]
      rw [if_neg (by omega)]
    · rw [verify_ticket_true_iff]
      constructor
      · rintro ⟨ev', hev', hb⟩
        rw [hev] at hev'
        simp only [Option.some.injEq] at hev'
        subst hev'
        exact hb
      · intro hb
        exact ⟨ev, hev, hb⟩

/-- C5 witness: querying a nonexistent event of the sample ledger returns the
boolean false. -/
theorem C5_witness : verify_ticket sampleLedger 99 "BUYER" = false :=
  (C5_verify_total_boolean sampleLedger 99 "BUYER").1 (by decide)

/-- C6: for a registered caller, create_event fails with EventInPast when the
date is not strictly in the future, with InvalidPrice when the date is valid
but the price is not positive, with InvalidQuantity when date and price are
valid but the quantity is outside 1..MAX_TICKETS, and every create_event
failure leaves the ledger unchanged, so no EventRecord and no asset is
created by the failed call. -/
theorem C6_create_event_validation (s : Ledger) (caller name venue : String)
    (date price quantity : Nat)
    (hreg : is_club_registered s caller = true) :
    (date ≤ s.time →
      create_event s caller name venue date price quantity
        = Except.error LedgerError.EventInPast) ∧
    (s.time < date → price ≤ 0 →
      create_event s caller name venue date price quantity
        = Except.error LedgerError.InvalidPrice) ∧
    (s.time < date → 0 < price → (quantity = 0 ∨ MAX_TICKETS < quantity) →
      create_event s caller name venue date price quantity
        = Except.error LedgerError.InvalidQuantity) ∧
    (∀ e, create_event s caller name venue date price quantity
        = Except.error e →
      applyOp s (Op.createEvent caller name venue date price quantity) = s) := by
  have hf : ∃ c, findClub s.clubs caller = some c := by
    cases hc : findClub s.clubs caller with
    | none =>
      simp only [is_club_registered, hc] at hreg
      exact absurd hreg (by simp)
    | some c => exact ⟨c, rfl⟩
  obtain ⟨c, hc⟩ := hf
  refine ⟨?_, ?_, ?_, ?_⟩
  · intro hpast
    simp only [create_event, hc]
    rw [if_pos hpast]
  · intro hfut hp0
    simp only [create_event, hc]
    rw [if_neg (by omega), if_pos (by omega)]
  · intro hfut hp hq
    simp only [create_event, hc]
    rw [if_neg (by omega), if_neg (by omega), if_pos hq]
  · intro e he
    simp only [applyOp, he]

/-- C6 witness: a registered club creating an event dated at the current
ledger time fails with EventInPast. -/
theorem C6_witness :
    create_event sampleLedger "CLUB" "Late" "Hall" 0 5 5
      = Except.error LedgerError.EventInPast :=
  (C6_create_event_validation sampleLedger "CLUB" "Late" "Hall" 0 5 5
    (by decide)).1 (by decide)

/-- C7: the first register_club call by an address (with valid inputs)
succeeds and appends the caller's record; once a record exists every further
register_club by that address fails with AlreadyRegistered and changes
nothing; an existing club record is preserved by every operation; and in
every reachable state club records have pairwise distinct owner addresses, so
at most one ClubRecord ever exists per address. -/
theorem C7_register_club_once (s : Ledger) (caller n c : String) :
    (findClub s.clubs caller = none →
      (0 < n.length ∧ n.length ≤ 64 ∧ 0 < c.length ∧ c.length ≤ 128) →
      register_club s caller n c
        = Except.ok { s with clubs := s.clubs ++ [⟨caller, n, c⟩] }) ∧
    ((∃ cr, findClub s.clubs caller = some cr) →
      register_club s caller n c = Except.error LedgerError.AlreadyRegistered ∧
      applyOp s (Op.registerClub caller n c) = s) ∧
    (∀ cr ∈ s.clubs, ∀ op : Op, cr ∈ (applyOp s op).clubs) ∧
    (∀ (a : String) (t : Nat) (ops : List Op),
      List.Pairwise (fun x y => x.ownerAddress ≠ y.ownerAddress)
        (exec (initLedger a t) ops).clubs) := by
  refine ⟨?_, ?_, ?_, ?_⟩
  · intro hnone hvalid
    simp only [register_club, hnone]
    rw [if_pos hvalid]
  · rintro ⟨cr, hsome⟩
    have herr : register_club s caller n c
        = Except.error LedgerError.AlreadyRegistered := by
      simp only [register_club, hsome]
    exact ⟨herr, by simp only [applyOp, herr]⟩
  · intro cr hmem op
    exact applyOp_clubs_mem op hmem
  · intro a t ops
    exact (WF_exec_init a t ops).2.2.2

/-- C7 witness: re-registering the sample club fails with AlreadyRegistered
and leaves the ledger unchanged. -/
theorem C7_witness :
    register_club sampleLedger "CLUB" "Other" "other@campus.edu"
      = Except.error LedgerError.AlreadyRegistered ∧
    applyOp sampleLedger (Op.registerClub "CLUB" "Other" "other@campus.edu")
      = sampleLedger :=
  (C7_register_club_once sampleLedger "CLUB" "Other" "other@campus.edu").2.1
    ⟨⟨"CLUB", "MLSC", "mlsc@campus.edu"⟩, by decide⟩

/-- C8: event identifiers form a contiguous 1-based sequence: in every
reachable state get_event_details i is present exactly for
1 ≤ i ≤ get_total_events and absent beyond, each stored record's eventId
equals its 1-based position, and a successful create_event assigns eventId
get_total_events + 1 — so identifiers increase monotonically from 1, are
unique and are never reused. -/
theorem C8_event_ids_contiguous (a : String) (t : Nat) (ops : List Op) :
    (∀ i : Nat,
      (get_event_details (exec (initLedger a t) ops) i).isSome ↔
        (1 ≤ i ∧ i ≤ get_total_events (exec (initLedger a t) ops))) ∧
    (∀ i ev, (exec (initLedger a t) ops).events[i]? = some ev →
      ev.eventId = i + 1) ∧
    (∀ (caller n v : String) (d p q eid : Nat) (s' : Ledger),
      create_event (exec (initLedger a t) ops) caller n v d p q
        = Except.ok (eid, s') →
      eid = get_total_events (exec (initLedger a t) ops) + 1 ∧
      get_total_events s' = get_total_events (exec (initLedger a t) ops) + 1) := by
  obtain ⟨-, hIdx, -, -⟩ := WF_exec_init a t ops
  refine ⟨?_, ?_, ?_⟩
  · intro i
    unfold get_event_details get_total_events
    by_cases hi : i = 0
    · subst hi
      simp
    · rw [if_neg hi]
      constructor
      · intro hs
        obtain ⟨ev, hev⟩ := Option.isSome_iff_exists.mp hs
        have := (List.getElem?_eq_some.mp hev).1
        omega
      · intro hrange
        rw [List.getElem?_eq_getElem (by omega)]
        rfl
  · intro i ev hget
    exact (hIdx i ev hget).1
  · intro caller n v d p q eid s' hok
    obtain ⟨-, -, -, -, -, heid, hs'⟩ := create_event_ok_inv hok
    subst hs'
    refine ⟨heid, ?_⟩
    unfold get_total_events
    dsimp only
    rw [List.length_append, List.length_singleton]

/-- C8 witness: the sample ledger's only record sits at position 0 with
eventId 1. -/
theorem C8_witness : sampleEvent.eventId = 0 + 1 :=
  (C8_event_ids_contiguous "APP" 0 sampleOps).2.1 0 sampleEvent (by decide)

/-- C9: for every demo event, handleRegisterNow (EventCard.tsx) attaches a
payment of exactly 1,000 microAlgos addressed to the application address,
regardless of the event's displayed ALGO price, and that amount never equals
the displayed price times 1,000,000. -/
theorem C9_demo_payment_fixed (appAddr : String) (e : DemoEvent)
    (he : e ∈ DEMO_EVENTS) :
    (handleRegisterNow_payment appAddr e).amount = 1000 ∧
    (handleRegisterNow_payment appAddr e).receiver = appAddr ∧
    (handleRegisterNow_payment appAddr e).amount ≠ e.price * 1000000 := by
  refine ⟨rfl, rfl, ?_⟩
  have he' := by simpa only [DEMO_EVENTS, List.mem_cons, List.not_mem_nil,
    or_false] using he
  rcases he' with rfl | rfl | rfl | rfl | rfl <;>
    norm_num [handleRegisterNow_payment]

/-- C9 witness: the first demo event (displayed price 2 ALGO) is charged
1,000 microAlgos, not 2,000,000. -/
theorem C9_witness :
    (handleRegisterNow_payment "APP"
      { id := 1, title := "MLSC Club Hackathon: Hexpiration 2026",
        club := "MLSC Club", date := "Feb 28, 2026",
        location := "Tech Lab, Building A", price := 2, icon := "💻",
        eventDate := 1772236800 }).amount = 1000 ∧
    (handleRegisterNow_payment "APP"
      { id := 1, title := "MLSC Club Hackathon: Hexpiration 2026",
        club := "MLSC Club", date := "Feb 28, 2026",
        location := "Tech Lab, Building A", price := 2, icon := "💻",
        eventDate := 1772236800 }).receiver = "APP" ∧
    (handleRegisterNow_payment "APP"
      { id := 1, title := "MLSC Club Hackathon: Hexpiration 2026",
        club := "MLSC Club", date := "Feb 28, 2026",
        location := "Tech Lab, Building A", price := 2, icon := "💻",
        eventDate := 1772236800 }).amount ≠ 2 * 1000000 :=
  C9_demo_payment_fixed "APP"
    { id := 1, title := "MLSC Club Hackathon: Hexpiration 2026",
      club := "MLSC Club", date := "Feb 28, 2026",
      location := "Tech Lab, Building A", price := 2, icon := "💻",
      eventDate := 1772236800 } (by decide)

/-- C10: the standard buy flow (handleBuyTicket in BuyTicket.tsx) checks the
buyer's account asset list before anything else; when the ticket asset is
absent its transaction sequence starts with an asset opt-in signed by the
buyer, ahead of the payment and the buy_ticket app call, and otherwise it
submits only payment and app call — so buy_ticket is never reached from this
flow without the buyer holding or having just opted in to the asset. -/
theorem C10_buy_flow_opt_in_before_call (addr : String)
    (accountAssets : List Nat) (eid aid price : Nat) (appAddr : String) :
    (aid ∈ accountAssets ∧
      handleBuyTicket_txns addr accountAssets eid aid price appAddr =
        [FrontendTxn.pay addr appAddr price,
         FrontendTxn.appCallBuyTicket addr eid]) ∨
    (aid ∉ accountAssets ∧
      handleBuyTicket_txns addr accountAssets eid aid price appAddr =
        [FrontendTxn.assetOptIn addr aid,
         FrontendTxn.pay addr appAddr price,
         FrontendTxn.appCallBuyTicket addr eid]) := by
  by_cases hmem : aid ∈ accountAssets
  · refine Or.inl ⟨hmem, ?_⟩
    simp [handleBuyTicket_txns, hmem]
  · refine Or.inr ⟨hmem, ?_⟩
    simp [handleBuyTicket_txns, hmem]

end AlgoSphere
